import Mathlib

/-!
Shallow embedding of the license subsystem of the Axon app
(`src/server/src/modules/license/*.ts`, `src/shared/schema.ts`):
the Paddle webhook pipeline (signature verification, payload parsing,
idempotency ledger, license lifecycle), the license validator and the
enforcement middleware.

JavaScript strings are Lean `String`s; JS `undefined` is `Option.none`;
timestamps (`Date`) are `Int` epoch milliseconds; the relational datastore
(two tables, `licenses` and `processed_events`) is an explicit record of
lists threaded through every operation.  Runtime facilities the code calls
(`JSON.parse`, `Date` string parsing, `crypto.createHmac`, `randomBytes`)
are parameters collected in `JsEnv`; everything written in the repository
itself is translated directly.
-/

/-! ## JSON values (the result of `JSON.parse`) -/

inductive Json where
  | null
  | bool (b : Bool)
  | num (n : Int)
  | str (s : String)
  | arr (elements : List Json)
  | obj (fields : List (String × Json))

/-- Property access `record[key]` on a parsed-JSON object: `none` is JS
`undefined`.  `JSON.parse` output has unique keys, so first match suffices. -/
def jsLookup (fields : List (String × Json)) (key : String) : Option Json :=
  (fields.find? (fun p => p.fst == key)).map (fun p => p.snd)

/-! ## JS string and number primitives used by the source -/

/-- The whitespace class of JS `String.prototype.trim` (ASCII part; the
code never feeds it non-ASCII whitespace). -/
def isJsWhitespace (c : Char) : Bool :=
  c == ' ' || c == '\t' || c == '\n' || c == '\r' || c == '\x0b' || c == '\x0c'

/-- JS `s.trim()`. -/
def jsTrim (s : String) : String :=
  String.mk (((s.data.dropWhile isJsWhitespace).reverse.dropWhile isJsWhitespace).reverse)

/-- JS `s.startsWith(p)`. -/
def jsStartsWith (s p : String) : Bool :=
  p.data.isPrefixOf s.data

/-- JS `s.endsWith(p)`. -/
def jsEndsWith (s p : String) : Bool :=
  p.data.isSuffixOf s.data

/-- JS `s.includes(sub)`. -/
def jsIncludes (s sub : String) : Bool :=
  s.data.tails.any (fun t => sub.data.isPrefixOf t)

/-- ASCII lower-casing of one character. -/
def jsToLowerChar (c : Char) : Char :=
  if 'A' ≤ c ∧ c ≤ 'Z' then Char.ofNat (c.toNat + 32) else c

/-- JS `s.toLowerCase()` (ASCII; the plan and price-id strings compared are
ASCII). -/
def jsToLower (s : String) : String :=
  String.mk (s.data.map jsToLowerChar)

/-- Splitting a character list at every separator character, keeping empty
segments, as JS `String.prototype.split` with a character-class regexp (and
as `split` with a one-character string separator) does. -/
def jsSplitChars (p : Char → Bool) : List Char → List Char → List String
  | [], acc => [String.mk acc.reverse]
  | c :: rest, acc =>
    if p c then String.mk acc.reverse :: jsSplitChars p rest []
    else jsSplitChars p rest (c :: acc)

def jsSplit (s : String) (p : Char → Bool) : List String :=
  jsSplitChars p s.data []

/-- JS `a || b` on an optionally-undefined string: the fallback replaces
`undefined` and the empty string (both falsy). -/
def jsOr (v : Option String) (fallback : String) : String :=
  match v with
  | some s => if s == "" then fallback else s
  | none => fallback

/-- Leading decimal digits of a character list, as a number; `none` when
there is no digit. -/
def parseLeadingDigits (cs : List Char) : Option Nat :=
  let ds := cs.takeWhile (fun c => c.isDigit)
  if ds.isEmpty then none
  else some (ds.foldl (fun a c => a * 10 + (c.toNat - 48)) 0)

/-- JS `Number.parseInt(s, 10)`: skip leading whitespace, optional sign,
leading digits, trailing garbage ignored; `none` is `NaN`.  (Exact for the
magnitudes the code meets; IEEE rounding above 2^53 is not modelled.) -/
def jsParseInt (s : String) : Option Int :=
  match s.data.dropWhile isJsWhitespace with
  | '-' :: rest => (parseLeadingDigits rest).map (fun n => -(n : Int))
  | '+' :: rest => (parseLeadingDigits rest).map (fun n => (n : Int))
  | rest => (parseLeadingDigits rest).map (fun n => (n : Int))

/-- Largest epoch-millisecond magnitude a JS `Date` accepts. -/
def maxJsDateMillis : Nat := 8640000000000000

/-! ## Hex encoding / decoding (Node `digest("hex")`, `Buffer.from(s, "hex")`) -/

/-- Lowercase hex digit for `n < 16`. -/
def hexDigitChar (n : Nat) : Char :=
  if n < 10 then Char.ofNat (48 + n) else Char.ofNat (87 + n)

/-- Node `buf.toString("hex")` over a byte list. -/
def hexEncode (bytes : List Nat) : String :=
  String.mk (bytes.foldr (fun b acc => hexDigitChar (b / 16) :: hexDigitChar (b % 16) :: acc) [])

/-- Value of one hex digit, upper or lower case. -/
def hexDigitValue (c : Char) : Option Nat :=
  if '0' ≤ c ∧ c ≤ '9' then some (c.toNat - 48)
  else if 'a' ≤ c ∧ c ≤ 'f' then some (c.toNat - 87)
  else if 'A' ≤ c ∧ c ≤ 'F' then some (c.toNat - 55)
  else none

/-- Node `Buffer.from(s, "hex")` consumes hex-digit pairs and stops at the
first invalid or incomplete pair, so malformed hex decodes short. -/
def bufferFromHexChars : List Char → List Nat
  | c1 :: c2 :: rest =>
    match hexDigitValue c1, hexDigitValue c2 with
    | some a, some b => (16 * a + b) :: bufferFromHexChars rest
    | _, _ => []
  | _ => []

def bufferFromHex (s : String) : List Nat :=
  bufferFromHexChars s.data

/-- Node `crypto.timingSafeEqual`: throws (`.error`) when the buffers differ
in length, otherwise compares contents. -/
def timingSafeEqualNode (a b : List Nat) : Except String Bool :=
  if a.length ≠ b.length then .error "ERR_CRYPTO_TIMING_SAFE_EQUAL_LENGTH"
  else .ok (a == b)

/-! ## Runtime environment parameters -/

/-- JS runtime facilities the service calls: the clock, `JSON.parse`,
`crypto.createHmac("sha256", _)` (as the digest byte list), `new Date(string)`
(epoch ms, `none` for an invalid date), `Date#toISOString`, and the
`randomBytes(2).toString("hex").toUpperCase()` stream indexed by a global
call counter. -/
structure JsEnv where
  now : Int
  jsonParse : String → Option Json
  hmacSha256 : String → String → List Nat
  parseDateString : String → Option Int
  toIso : Int → String
  randSeg : Nat → String

/-! ## Error and result types (`license.types.ts`) -/

/-- One entry of a `details` record (the code stores strings and numbers). -/
inductive DetailValue where
  | str (s : String)
  | int (n : Int)
deriving DecidableEq

/-- `LicenseHttpError`: statusCode, code, message, optional details. -/
structure LicenseHttpError where
  statusCode : Nat
  code : String
  message : String
  details : Option (List (String × DetailValue))
deriving DecidableEq

/-- An error escaping a service method: a thrown `LicenseHttpError`, or an
uncaught runtime exception (e.g. from `timingSafeEqual`). -/
inductive ServiceError where
  | http (e : LicenseHttpError)
  | exn (message : String)
deriving DecidableEq

def ServiceError.isUncaughtExn : ServiceError → Bool
  | .exn _ => true
  | .http _ => false

/-- Whether a webhook-processing outcome is an uncaught runtime exception. -/
def resultIsUncaughtExn {α : Type} : Except ServiceError α → Bool
  | .error (.exn _) => true
  | _ => false

structure ParsedPaddleSignature where
  timestamp : String
  signature : String
deriving DecidableEq

structure PaddleWebhookPayload where
  eventId : String
  eventType : String
  data : List (String × Json)

/-- `PaddleWebhookResult` (`ok` is always `true` in the source type). -/
structure PaddleWebhookResult where
  eventId : String
  eventType : String
  action : String
deriving DecidableEq

/-! ## Datastore rows (`shared/schema.ts`) and state -/

/-- A row of the `licenses` table; `id` (a generated uuid) is modelled by a
counter, timestamps are epoch milliseconds. -/
structure LicenseRow where
  id : Nat
  key : String
  email : Option String
  status : String
  plan : String
  maxDevices : Int
  paddleSubscriptionId : Option String
  expiresAt : Int
  createdAt : Int
  updatedAt : Int
deriving DecidableEq

/-- `LicenseValidationResult` (`license.types.ts`). -/
structure LicenseValidationResult where
  valid : Bool
  statusCode : Nat
  message : String
  code : String
  details : Option (List (String × DetailValue))
  license : Option LicenseRow
deriving DecidableEq

/-- A row of the `processed_events` table. -/
structure ProcessedEventRow where
  id : Nat
  eventId : String
  source : String
  processedAt : Int
deriving DecidableEq

/-- One datastore operation, recorded in an audit trace.  `applyLifecycle`
is an instrumentation marker prepended whenever `applyPaddleLifecycle`
runs, so that lifecycle applications can be counted. -/
inductive DbOp where
  | selectLicenseByKey (key : String)
  | selectLicenseBySub (subId : String)
  | insertProcessedEvent (eventId : String) (claimed : Bool)
  | deleteProcessedEvents (eventId : String)
  | insertLicense (key : String) (inserted : Bool)
  | updateLicenseById (id : Nat)
  | updateLicenseBySub (subId : String)
  | applyLifecycle (eventId : String) (eventType : String)
deriving DecidableEq

def DbOp.isSelect : DbOp → Bool
  | .selectLicenseByKey _ => true
  | .selectLicenseBySub _ => true
  | _ => false

def DbOp.isApplyLifecycle : DbOp → Bool
  | .applyLifecycle _ _ => true
  | _ => false

/-- Number of lifecycle applications recorded in a trace. -/
def countLifecycle (trace : List DbOp) : Nat :=
  (trace.filter DbOp.isApplyLifecycle).length

/-- The datastore plus the process-level counters the model threads:
`nextId` generates row ids, `randCtr` counts `randomBytes` calls, `trace`
records the operations performed (most recent first). -/
structure DbState where
  licenses : List LicenseRow
  processedEvents : List ProcessedEventRow
  nextId : Nat
  randCtr : Nat
  trace : List DbOp
deriving DecidableEq

def pushOp (st : DbState) (op : DbOp) : DbState :=
  { st with trace := op :: st.trace }

/-! ## Datastore primitives (the drizzle queries the service issues) -/

/-- `select().from(licenses).where(eq(licenses.key, k)).limit(1)`. -/
def dbSelectLicenseByKey (st : DbState) (key : String) : DbState × Option LicenseRow :=
  (pushOp st (.selectLicenseByKey key), st.licenses.find? (fun row => row.key == key))

/-- `select().from(licenses).where(eq(licenses.paddleSubscriptionId, s)).limit(1)`. -/
def dbSelectLicenseBySub (st : DbState) (subId : String) : DbState × Option LicenseRow :=
  (pushOp st (.selectLicenseBySub subId),
   st.licenses.find? (fun row => row.paddleSubscriptionId == some subId))

/-- `insert(processedEvents).values({eventId, source}).onConflictDoNothing({target: eventId}).returning({id})`:
the unique constraint on `event_id` makes a duplicate insert a no-op
returning no row. -/
def dbInsertProcessedEvent (env : JsEnv) (st : DbState) (eventId source : String) :
    DbState × List Nat :=
  if st.processedEvents.any (fun r => r.eventId == eventId) then
    (pushOp st (.insertProcessedEvent eventId false), [])
  else
    ({ st with
        processedEvents := st.processedEvents ++ [⟨st.nextId, eventId, source, env.now⟩],
        nextId := st.nextId + 1,
        trace := .insertProcessedEvent eventId true :: st.trace },
     [st.nextId])

/-- `delete(processedEvents).where(eq(processedEvents.eventId, e))`. -/
def dbDeleteProcessedEventsByEventId (st : DbState) (eventId : String) : DbState :=
  { st with
      processedEvents := st.processedEvents.filter (fun r => !(r.eventId == eventId)),
      trace := .deleteProcessedEvents eventId :: st.trace }

/-- `insert(licenses).values({...}).onConflictDoNothing({target: licenses.key}).returning({id})`. -/
def dbInsertLicenseOnKeyConflictDoNothing (env : JsEnv) (st : DbState) (key : String)
    (email : Option String) (status plan : String) (maxDevices : Int)
    (paddleSubscriptionId : Option String) (expiresAt : Int) : DbState × List Nat :=
  if st.licenses.any (fun r => r.key == key) then
    (pushOp st (.insertLicense key false), [])
  else
    ({ st with
        licenses := st.licenses ++
          [⟨st.nextId, key, email, status, plan, maxDevices, paddleSubscriptionId,
            expiresAt, env.now, env.now⟩],
        nextId := st.nextId + 1,
        trace := .insertLicense key true :: st.trace },
     [st.nextId])

/-- `update(licenses).set({email, plan, maxDevices, status, expiresAt, updatedAt}).where(eq(licenses.id, id))`. -/
def dbUpdateLicenseActivation (st : DbState) (id : Nat) (email : Option String)
    (plan : String) (maxDevices : Int) (status : String) (expiresAt updatedAt : Int) :
    DbState :=
  { st with
      licenses := st.licenses.map (fun row =>
        if row.id == id then
          { row with email := email, plan := plan, maxDevices := maxDevices,
                     status := status, expiresAt := expiresAt, updatedAt := updatedAt }
        else row),
      trace := .updateLicenseById id :: st.trace }

/-- `update(licenses).set({status, updatedAt}).where(eq(licenses.paddleSubscriptionId, s))`. -/
def dbUpdateLicenseDeactivation (st : DbState) (subId : String) (status : String)
    (updatedAt : Int) : DbState :=
  { st with
      licenses := st.licenses.map (fun row =>
        if row.paddleSubscriptionId == some subId then
          { row with status := status, updatedAt := updatedAt }
        else row),
      trace := .updateLicenseBySub subId :: st.trace }

/-! ## Configuration (`ConfigService` lookups the subsystem performs) -/

structure ServiceConfig where
  licenseEnforce : Option String
  licenseKeyPrefix : Option String
  paddleWebhookSecret : Option String
  paddleWebhookToleranceSec : Option String
  hasDb : Bool

/-! ## `license.helpers.ts` -/

def PADDLE_ACTIVATING_EVENTS : List String :=
  ["subscription.activated", "subscription.created", "subscription.updated",
   "subscription.resumed", "subscription.trialing", "subscription.past_due"]

def PADDLE_DEACTIVATING_EVENTS : List String :=
  ["subscription.canceled", "subscription.cancelled", "subscription.paused",
   "subscription.expired", "subscription.terminated"]

/-- `asRecord`: a non-null, non-array object, else `null`.  Over parsed JSON
only an object literal qualifies. -/
def asRecord : Json → Option (List (String × Json))
  | .obj fields => some fields
  | _ => none

/-- `asRecord` applied to a possibly-undefined value (`asRecord(x?.y)`). -/
def asRecordOpt (v : Option Json) : Option (List (String × Json)) :=
  v.bind asRecord

/-- `readString`: a string whose trim is non-empty, trimmed; else `null`. -/
def readString (v : Option Json) : Option String :=
  match v with
  | some (.str s) => if (jsTrim s).length > 0 then some (jsTrim s) else none
  | _ => none

/-- `readDate` on a parsed-JSON value: the `value instanceof Date` branch is
unreachable (JSON.parse never yields a `Date`); a string goes through
`new Date(string)`, a number through `new Date(number)` (invalid outside the
JS date range); anything else is `null`.  The result is epoch ms. -/
def readDate (env : JsEnv) (v : Option Json) : Option Int :=
  match v with
  | some (.str s) => env.parseDateString s
  | some (.num n) => if n.natAbs ≤ maxJsDateMillis then some n else none
  | _ => none

/-- The loop body of `readNestedValue`: `current` starts as the source
record; each segment requires the current value to be a record containing
the segment (`segment in node`), else `undefined`. -/
def readNestedValueGo : Option Json → List String → Option Json
  | current, [] => current
  | current, segment :: rest =>
    match asRecordOpt current with
    | none => none
    | some node =>
      match jsLookup node segment with
      | none => none
      | some v => readNestedValueGo (some v) rest

def readNestedValue (source : List (String × Json)) (path : List String) : Option Json :=
  readNestedValueGo (some (Json.obj source)) path

/-- `derivePlanFromPriceId`. -/
def derivePlanFromPriceId (priceId : Option String) : String :=
  match priceId with
  | none => "pro"
  | some p =>
    if p == "" then "pro"
    else
      let normalized := jsToLower p
      if jsIncludes normalized "enterprise" then "enterprise"
      else if jsIncludes normalized "business" then "business"
      else "pro"

/-- `deriveMaxDevices`. -/
def deriveMaxDevices (plan : String) : Int :=
  let normalized := jsToLower plan
  if normalized == "enterprise" then 100
  else if normalized == "business" then 10
  else 1

/-- `buildLicenseKey`: the configured prefix (normalized to end in `-`)
followed by four random 2-byte hex groups.  `randomBytes` is modelled by
`env.randSeg` at the global call counter `ctr`. -/
def buildLicenseKey (env : JsEnv) (keyPrefix : String) (ctr : Nat) : String :=
  let normalizedPrefix := if jsEndsWith keyPrefix "-" then keyPrefix else keyPrefix ++ "-"
  normalizedPrefix ++ env.randSeg ctr ++ "-" ++ env.randSeg (ctr + 1) ++ "-" ++
    env.randSeg (ctr + 2) ++ "-" ++ env.randSeg (ctr + 3)

/-- `parsePaddlePayload`. -/
def parsePaddlePayload (env : JsEnv) (rawBody : String) :
    Except ServiceError PaddleWebhookPayload :=
  match env.jsonParse rawBody with
  | none =>
    .error (.http ⟨400, "PADDLE_INVALID_PAYLOAD",
      "Paddle webhook payload must be valid JSON", none⟩)
  | some parsed =>
    match asRecord parsed with
    | none =>
      .error (.http ⟨400, "PADDLE_INVALID_PAYLOAD",
        "Paddle webhook payload must be an object", none⟩)
    | some root =>
      let eventId := readString (jsLookup root "event_id")
      let eventType := readString (jsLookup root "event_type")
      let data := (asRecordOpt (jsLookup root "data")).getD []
      match eventId, eventType with
      | some eid, some ety => .ok ⟨eid, ety, data⟩
      | _, _ =>
        .error (.http ⟨400, "PADDLE_INVALID_PAYLOAD",
          "Paddle webhook payload is missing event_id or event_type", none⟩)

/-- One step of the `parsePaddleSignatureHeader` loop over `key=value`
pairs: a pair with an empty key or no `=` is skipped; `ts` and `h1`
assignments are last-wins. -/
def signaturePairStep (acc : Option String × Option String) (pair : String) :
    Option String × Option String :=
  match jsSplit pair (fun c => c == '=') with
  | [] => acc
  | key :: rest =>
    if key == "" || rest.isEmpty then acc
    else
      let value := jsTrim (String.intercalate "=" rest)
      (if key == "ts" then some value else acc.1,
       if key == "h1" then some value else acc.2)

/-- `parsePaddleSignatureHeader`. -/
def parsePaddleSignatureHeader (signatureHeader : Option String) :
    Except ServiceError ParsedPaddleSignature :=
  match signatureHeader with
  | none =>
    .error (.http ⟨401, "PADDLE_SIGNATURE_MISSING",
      "Paddle webhook signature is missing", none⟩)
  | some header =>
    if header == "" then
      .error (.http ⟨401, "PADDLE_SIGNATURE_MISSING",
        "Paddle webhook signature is missing", none⟩)
    else
      let signaturePairs :=
        ((jsSplit header (fun c => c == ';' || c == ',')).map jsTrim).filter
          (fun part => part.length > 0)
      match signaturePairs.foldl signaturePairStep (none, none) with
      | (some timestamp, some receivedSignature) =>
        if timestamp == "" || receivedSignature == "" then
          .error (.http ⟨401, "PADDLE_SIGNATURE_INVALID",
            "Paddle webhook signature header is malformed", none⟩)
        else .ok ⟨timestamp, receivedSignature⟩
      | _ =>
        .error (.http ⟨401, "PADDLE_SIGNATURE_INVALID",
          "Paddle webhook signature header is malformed", none⟩)

/-- `extractSubscriptionId`: `data.id`, `data.subscription_id`,
`data.subscription.id`, first non-empty trimmed string. -/
def extractSubscriptionId (data : List (String × Json)) : Option String :=
  [jsLookup data "id", jsLookup data "subscription_id",
   readNestedValue data ["subscription", "id"]].findSome? readString

/-- `extractExpiryDate`: first parseable date among the candidates, else
now + 365 days. -/
def extractExpiryDate (env : JsEnv) (data : List (String × Json)) : Int :=
  match
    [readNestedValue data ["current_billing_period", "ends_at"],
     jsLookup data "next_billed_at",
     readNestedValue data ["billing_period", "ends_at"],
     readNestedValue data ["scheduled_change", "effective_at"]].findSome?
      (readDate env)
  with
  | some value => value
  | none => env.now + 365 * 24 * 60 * 60 * 1000

/-- `resolvePlan`. -/
def resolvePlan (data : List (String × Json)) : String :=
  let customData := asRecordOpt (jsLookup data "custom_data")
  match readString (customData.bind (fun cd => jsLookup cd "plan")) with
  | some customPlan => customPlan
  | none =>
    let firstItem : Option Json :=
      match jsLookup data "items" with
      | some (.arr elements) => elements.head?
      | _ => none
    let firstItemRecord := asRecordOpt firstItem
    let price := asRecordOpt (firstItemRecord.bind (fun r => jsLookup r "price"))
    let priceId :=
      match readString (price.bind (fun p => jsLookup p "id")) with
      | some v => some v
      | none => readString (firstItemRecord.bind (fun r => jsLookup r "price_id"))
    derivePlanFromPriceId priceId

/-- `extractEmail`. -/
def extractEmail (data : List (String × Json)) : Option String :=
  let customer := asRecordOpt (jsLookup data "customer")
  let customData := asRecordOpt (jsLookup data "custom_data")
  [jsLookup data "email",
   customer.bind (fun c => jsLookup c "email"),
   customData.bind (fun c => jsLookup c "email")].findSome? readString

/-- `mapDeactivationStatus`. -/
def mapDeactivationStatus (eventType : String) : String :=
  if eventType == "subscription.expired" then "expired"
  else if eventType == "subscription.paused" then "paused"
  else "canceled"

/-! ## `license.service.ts` -/

def backendUnavailableError : LicenseHttpError :=
  ⟨503, "LICENSE_BACKEND_UNAVAILABLE", "License backend is not available", none⟩

/-- `LicenseService.isEnforced`. -/
def LicenseService.isEnforced (cfg : ServiceConfig) : Bool :=
  cfg.licenseEnforce == some "true"

/-- `LicenseService.invalid`: the invalid-result constructor. -/
def LicenseService.invalid (statusCode : Nat) (code message : String)
    (details : Option (List (String × DetailValue))) : LicenseValidationResult :=
  { valid := false, statusCode := statusCode, code := code, message := message,
    details := details, license := none }

/-- `LicenseService.validateLicenseKey`. -/
def LicenseService.validateLicenseKey (cfg : ServiceConfig) (env : JsEnv)
    (st : DbState) (key : String) : DbState × LicenseValidationResult :=
  let normalizedKey := jsTrim key
  if normalizedKey == "" then
    (st, LicenseService.invalid 401 "LICENSE_REQUIRED"
      "License key is required for hosted access" none)
  else
    let expectedPrefix := jsOr cfg.licenseKeyPrefix "AXON-"
    if expectedPrefix != "" && !jsStartsWith normalizedKey expectedPrefix then
      (st, LicenseService.invalid 401 "LICENSE_INVALID" "Invalid license key format"
        (some [("expectedPrefix", .str expectedPrefix)]))
    else if !cfg.hasDb then
      (st, LicenseService.invalid 503 "LICENSE_BACKEND_UNAVAILABLE"
        "License backend is not available" none)
    else
      let selected := dbSelectLicenseByKey st normalizedKey
      match selected.2 with
      | none =>
        (selected.1, LicenseService.invalid 401 "LICENSE_INVALID" "Invalid license key" none)
      | some current =>
        if current.status != "active" then
          (selected.1, LicenseService.invalid 403 "LICENSE_BLOCKED" "License is not active"
            (some [("status", .str current.status)]))
        else if current.expiresAt ≤ env.now then
          (selected.1, LicenseService.invalid 402 "LICENSE_EXPIRED" "License has expired"
            (some [("expiresAt", .str (env.toIso current.expiresAt))]))
        else
          (selected.1,
           { valid := true, statusCode := 200, message := "License is valid",
             code := "LICENSE_VALID", details := none, license := some current })

/-- `LicenseService.verifyPaddleSignature`.  Pure: it touches no datastore
state.  An `.exn` result is an uncaught runtime exception (the
`timingSafeEqual` length throw), which the method does not handle. -/
def LicenseService.verifyPaddleSignature (cfg : ServiceConfig) (env : JsEnv)
    (rawBody : String) (signatureHeader : Option String) : Except ServiceError Unit :=
  let secret := jsOr cfg.paddleWebhookSecret ""
  if secret == "" then
    .error (.http ⟨503, "PADDLE_NOT_CONFIGURED",
      "Paddle webhook secret is not configured", none⟩)
  else
    match parsePaddleSignatureHeader signatureHeader with
    | .error e => .error e
    | .ok parsedSignature =>
      let timestamp := parsedSignature.timestamp
      let receivedSignature := parsedSignature.signature
      let toleranceSeconds := jsParseInt (jsOr cfg.paddleWebhookToleranceSec "300")
      let timestampSeconds := jsParseInt timestamp
      let expiredCheck : Except ServiceError Unit :=
        match toleranceSeconds, timestampSeconds with
        | some tol, some ts =>
          if tol > 0 then
            let drift : Int := |Int.fdiv env.now 1000 - ts|
            if drift > tol then
              .error (.http ⟨401, "PADDLE_SIGNATURE_EXPIRED",
                "Paddle webhook signature timestamp is outside allowed skew",
                some [("driftSeconds", .int drift), ("toleranceSeconds", .int tol)]⟩)
            else .ok ()
          else .ok ()
        | _, _ => .ok ()
      match expiredCheck with
      | .error e => .error e
      | .ok _ =>
        let payloadToSign := timestamp ++ ":" ++ rawBody
        let expectedSignature := hexEncode (env.hmacSha256 secret payloadToSign)
        let receivedBuffer := bufferFromHex receivedSignature
        let expectedBuffer := bufferFromHex expectedSignature
        if receivedBuffer.length == 0 || receivedBuffer.length != expectedBuffer.length then
          .error (.http ⟨401, "PADDLE_SIGNATURE_INVALID",
            "Paddle webhook signature does not match", none⟩)
        else
          match timingSafeEqualNode receivedBuffer expectedBuffer with
          | .error m => .error (.exn m)
          | .ok isValid =>
            if isValid then .ok ()
            else
              .error (.http ⟨401, "PADDLE_SIGNATURE_INVALID",
                "Paddle webhook signature does not match", none⟩)

/-- The key-generation retry loop inside `upsertActiveLicense`
(`for attempt = 0; attempt < maxAttempts; attempt += 1`), by remaining
attempts. -/
def insertFreshLicenseLoop (env : JsEnv) (keyPrefix : String) (email : Option String)
    (status plan : String) (maxDevices : Int) (subscriptionId : String)
    (expiresAt : Int) : Nat → DbState → DbState × Except ServiceError Unit
  | 0, st =>
    (st, .error (.http ⟨500, "LICENSE_KEY_GENERATION_FAILED",
      "Unable to generate a unique license key", none⟩))
  | Nat.succ n, st =>
    let generatedKey := buildLicenseKey env keyPrefix st.randCtr
    let st1 : DbState := { st with randCtr := st.randCtr + 4 }
    let inserted := dbInsertLicenseOnKeyConflictDoNothing env st1 generatedKey email
      status plan maxDevices (some subscriptionId) expiresAt
    if inserted.2.length > 0 then (inserted.1, .ok ())
    else insertFreshLicenseLoop env keyPrefix email status plan maxDevices
      subscriptionId expiresAt n inserted.1

/-- The status taken from the payload in `upsertActiveLicense`:
`typeof data.status === "string" && data.status.trim().length > 0
? data.status.trim() : "active"` (named here so theorems can refer to it). -/
def payloadStatus (data : List (String × Json)) : String :=
  match jsLookup data "status" with
  | some (.str s) => if (jsTrim s).length > 0 then jsTrim s else "active"
  | _ => "active"

/-- `LicenseService.upsertActiveLicense`. -/
def LicenseService.upsertActiveLicense (cfg : ServiceConfig) (env : JsEnv)
    (st : DbState) (data : List (String × Json)) : DbState × Except ServiceError Unit :=
  if !cfg.hasDb then (st, .error (.http backendUnavailableError))
  else
    match extractSubscriptionId data with
    | none =>
      (st, .error (.http ⟨400, "PADDLE_SUBSCRIPTION_ID_MISSING",
        "Paddle event is missing subscription id", none⟩))
    | some subscriptionId =>
      let plan := resolvePlan data
      let maxDevices := deriveMaxDevices plan
      let expiresAt := extractExpiryDate env data
      let email := extractEmail data
      let status := payloadStatus data
      let existing := dbSelectLicenseBySub st subscriptionId
      match existing.2 with
      | some existingLicense =>
        (dbUpdateLicenseActivation existing.1 existingLicense.id
          (match email with | some e => some e | none => existingLicense.email)
          plan maxDevices status expiresAt env.now, .ok ())
      | none =>
        let keyPrefix := jsOr cfg.licenseKeyPrefix "AXON-"
        insertFreshLicenseLoop env keyPrefix email status plan maxDevices
          subscriptionId expiresAt 5 existing.1

/-- `LicenseService.deactivateLicense`. -/
def LicenseService.deactivateLicense (cfg : ServiceConfig) (env : JsEnv)
    (st : DbState) (data : List (String × Json)) (eventType : String) :
    DbState × Except ServiceError Unit :=
  if !cfg.hasDb then (st, .error (.http backendUnavailableError))
  else
    match extractSubscriptionId data with
    | none => (st, .ok ())
    | some subscriptionId =>
      let status := mapDeactivationStatus eventType
      (dbUpdateLicenseDeactivation st subscriptionId status env.now, .ok ())

/-- `LicenseService.applyPaddleLifecycle`.  The trace marker records that a
lifecycle application ran for this event. -/
def LicenseService.applyPaddleLifecycle (cfg : ServiceConfig) (env : JsEnv)
    (st : DbState) (payload : PaddleWebhookPayload) : DbState × Except ServiceError String :=
  let st0 := pushOp st (.applyLifecycle payload.eventId payload.eventType)
  let eventType := payload.eventType
  if PADDLE_ACTIVATING_EVENTS.contains eventType then
    let r := LicenseService.upsertActiveLicense cfg env st0 payload.data
    (r.1, r.2.map (fun _ =>
      if eventType == "subscription.created" then "activated" else "updated"))
  else if PADDLE_DEACTIVATING_EVENTS.contains eventType then
    let r := LicenseService.deactivateLicense cfg env st0 payload.data eventType
    (r.1, r.2.map (fun _ => "deactivated"))
  else (st0, .ok "ignored")

/-- `LicenseService.processPaddleWebhook`. -/
def LicenseService.processPaddleWebhook (cfg : ServiceConfig) (env : JsEnv)
    (st : DbState) (rawBody : String) (signatureHeader : Option String) :
    DbState × Except ServiceError PaddleWebhookResult :=
  match LicenseService.verifyPaddleSignature cfg env rawBody signatureHeader with
  | .error e => (st, .error e)
  | .ok _ =>
    match parsePaddlePayload env rawBody with
    | .error e => (st, .error e)
    | .ok payload =>
      if !cfg.hasDb then (st, .error (.http backendUnavailableError))
      else
        let lock := dbInsertProcessedEvent env st payload.eventId "paddle"
        if lock.2.length == 0 then
          (lock.1, .ok ⟨payload.eventId, payload.eventType, "duplicate"⟩)
        else
          let applied := LicenseService.applyPaddleLifecycle cfg env lock.1 payload
          match applied.2 with
          | .ok action => (applied.1, .ok ⟨payload.eventId, payload.eventType, action⟩)
          | .error e =>
            (dbDeleteProcessedEventsByEventId applied.1 payload.eventId, .error e)

/-! ## `license.middleware.ts` -/

/-- An HTTP request-header value: absent, a single string, or repeated. -/
inductive HeaderValue where
  | undef
  | str (s : String)
  | arr (values : List String)

/-- `readHeaderValue`. -/
def readHeaderValue : HeaderValue → String
  | .str s => s
  | .arr values =>
    match values with
    | [] => ""
    | first :: _ => first
  | .undef => ""

/-- A denial response body `{statusCode, message, code, details}`. -/
structure DenyBody where
  statusCode : Nat
  message : String
  code : String
  details : Option (List (String × DetailValue))
deriving DecidableEq

/-- The middleware's effect on the request: pass to `next()` (with the
license record attached to the request, when one was resolved), or respond
with a denial. -/
inductive MiddlewareOutcome where
  | allow (license : Option LicenseRow)
  | deny (statusCode : Nat) (body : DenyBody)
deriving DecidableEq

/-- `LicenseMiddleware.use`. -/
def LicenseMiddleware.use (cfg : ServiceConfig) (env : JsEnv) (st : DbState)
    (headerValue : HeaderValue) : DbState × MiddlewareOutcome :=
  if !LicenseService.isEnforced cfg then (st, .allow none)
  else
    let licenseKey := jsTrim (readHeaderValue headerValue)
    if licenseKey == "" then
      (st, .deny 401 ⟨401, "License key is required for hosted access",
        "LICENSE_REQUIRED", none⟩)
    else
      let validated := LicenseService.validateLicenseKey cfg env st licenseKey
      let result := validated.2
      if !result.valid then
        (validated.1, .deny result.statusCode
          ⟨result.statusCode, result.message, result.code, result.details⟩)
      else (validated.1, .allow result.license)

/-! ## Decidability of result equality (for concrete evaluations) -/

instance {ε α : Type} [DecidableEq ε] [DecidableEq α] : DecidableEq (Except ε α) := fun a b =>
  match a, b with
  | .ok x, .ok y => if h : x = y then isTrue (by rw [h]) else isFalse (by simp [h])
  | .ok _, .error _ => isFalse (by simp)
  | .error _, .ok _ => isFalse (by simp)
  | .error x, .error y => if h : x = y then isTrue (by rw [h]) else isFalse (by simp [h])

/-! ## Concrete fixtures (used to instantiate hypotheses and counterexamples) -/

def zeros64 : String := String.mk (List.replicate 64 '0')

def sampleBody : String :=
  "\x7b\"event_id\":\"evt1\",\"event_type\":\"subscription.created\",\"data\":\x7b\"id\":\"sub1\"\x7d\x7d"

def sampleJson : Json :=
  Json.obj [("event_id", Json.str "evt1"), ("event_type", Json.str "subscription.created"),
    ("data", Json.obj [("id", Json.str "sub1")])]

def sampleSeg : Nat → String
  | 0 => "A0A0" | 1 => "A1A1" | 2 => "A2A2" | 3 => "A3A3"
  | 4 => "B0B0" | 5 => "B1B1" | 6 => "B2B2" | 7 => "B3B3"
  | _ => "FFFF"

/-- A representative runtime: `JSON.parse` behaves as on `sampleBody`, the
HMAC digest is a fixed 32-byte value, `randomBytes` pairs come from
`sampleSeg`.  `now` is 1 000 000 ms, i.e. second 1000. -/
def sampleEnv : JsEnv :=
  { now := 1000000,
    jsonParse := fun s => if s == sampleBody then some sampleJson else none,
    hmacSha256 := fun _ _ => List.replicate 32 0,
    parseDateString := fun _ => none,
    toIso := fun n => toString n,
    randSeg := sampleSeg }

def sampleCfg : ServiceConfig :=
  { licenseEnforce := some "true", licenseKeyPrefix := none,
    paddleWebhookSecret := some "secret", paddleWebhookToleranceSec := none,
    hasDb := true }

def emptyDb : DbState := ⟨[], [], 0, 0, []⟩

/-- A header that verifies under `sampleEnv` (`h1` is the hex of the fixed
digest, `ts` the current second). -/
def sampleHeader : String := "ts=1000;h1=" ++ zeros64

def samplePayload : PaddleWebhookPayload :=
  ⟨"evt1", "subscription.created", [("id", Json.str "sub1")]⟩

def revokedExpiredRow : LicenseRow :=
  ⟨1, "AXON-TEST", none, "revoked", "pro", 1, some "subX", 0, 0, 0⟩

def dbWithRevoked : DbState := ⟨[revokedExpiredRow], [], 2, 0, []⟩

/-! ## Small helper lemmas -/

lemma jsOr_ne_empty (v : Option String) (fb : String) (h : fb ≠ "") : jsOr v fb ≠ "" := by
  unfold jsOr
  cases v with
  | none => exact h
  | some s =>
    by_cases hs : (s == "") = true
    · simp [hs, h]
    · simp only [hs, if_false]
      simpa using hs

/-! ## C7: prefix gate of `validateLicenseKey` -/

/-- C7 (amended): for every key whose trimmed form is non-empty and does not
start with the configured prefix, `validateLicenseKey` returns
`LICENSE_INVALID` / 401 with the expected prefix in the details, for every
datastore state, touching no datastore state (the returned state is the
input state, with no query recorded). -/
theorem claim_C7_prefix_gate (cfg : ServiceConfig) (env : JsEnv) (st : DbState)
    (key : String) (hne : jsTrim key ≠ "")
    (hpre : jsStartsWith (jsTrim key) (jsOr cfg.licenseKeyPrefix "AXON-") = false) :
    LicenseService.validateLicenseKey cfg env st key =
      (st, LicenseService.invalid 401 "LICENSE_INVALID" "Invalid license key format"
        (some [("expectedPrefix", DetailValue.str (jsOr cfg.licenseKeyPrefix "AXON-"))])) := by
  have h1 : (jsTrim key == "") = false := by simpa using hne
  have h2 : (jsOr cfg.licenseKeyPrefix "AXON-" != "") = true := by
    simpa using jsOr_ne_empty cfg.licenseKeyPrefix "AXON-" (by decide)
  unfold LicenseService.validateLicenseKey
  simp [h1, h2, hpre]

/-- C7 witness: a concrete non-prefixed key at a concrete state. -/
theorem claim_C7_witness :
    LicenseService.validateLicenseKey sampleCfg sampleEnv emptyDb "BAD-KEY" =
      (emptyDb, LicenseService.invalid 401 "LICENSE_INVALID" "Invalid license key format"
        (some [("expectedPrefix", DetailValue.str "AXON-")])) :=
  claim_C7_prefix_gate sampleCfg sampleEnv emptyDb "BAD-KEY" (by decide) (by decide)

/-- C7 counterexample: the claim quantifies over every key whose trimmed
form does not start with the prefix; the key `"   "` trims to `""` (which
does not start with `"AXON-"`), yet the code returns `LICENSE_REQUIRED`,
not `LICENSE_INVALID`. -/
theorem claim_C7_counterexample :
    jsStartsWith (jsTrim "   ") (jsOr sampleCfg.licenseKeyPrefix "AXON-") = false ∧
    (LicenseService.validateLicenseKey sampleCfg sampleEnv emptyDb "   ").2.code
      = "LICENSE_REQUIRED" ∧
    (LicenseService.validateLicenseKey sampleCfg sampleEnv emptyDb "   ").2.code
      ≠ "LICENSE_INVALID" := by
  refine ⟨by decide, by decide, by decide⟩

/-! ## C2: blocked is checked before expired -/

/-- C2: when the validator finds a row by exact key match, a non-`active`
status yields `LICENSE_BLOCKED` / 403 (details carry the actual status)
regardless of `expiresAt`; only an `active` row whose `expiresAt` has
passed yields `LICENSE_EXPIRED` / 402. -/
theorem claim_C2_status_before_expiry (cfg : ServiceConfig) (env : JsEnv)
    (st : DbState) (key : String) (cur : LicenseRow)
    (hdb : cfg.hasDb = true)
    (hne : jsTrim key ≠ "")
    (hpre : jsStartsWith (jsTrim key) (jsOr cfg.licenseKeyPrefix "AXON-") = true)
    (hfind : st.licenses.find? (fun row => row.key == jsTrim key) = some cur) :
    (cur.status ≠ "active" →
      (LicenseService.validateLicenseKey cfg env st key).2 =
        LicenseService.invalid 403 "LICENSE_BLOCKED" "License is not active"
          (some [("status", DetailValue.str cur.status)])) ∧
    (cur.status = "active" → cur.expiresAt ≤ env.now →
      (LicenseService.validateLicenseKey cfg env st key).2 =
        LicenseService.invalid 402 "LICENSE_EXPIRED" "License has expired"
          (some [("expiresAt", DetailValue.str (env.toIso cur.expiresAt))])) := by
  have h1 : (jsTrim key == "") = false := by simpa using hne
  unfold LicenseService.validateLicenseKey dbSelectLicenseByKey
  simp only [h1, hpre, hdb, hfind, Bool.not_true, Bool.and_false, Bool.false_eq_true,
    if_false, Bool.not_false, if_true]
  constructor
  · intro hstat
    have : (cur.status != "active") = true := by simpa using hstat
    simp [this]
  · intro hstat hexp
    have : (cur.status != "active") = false := by simpa using hstat
    simp [this, hexp]

/-- C2 witness: a revoked and already-expired license reports
`LICENSE_BLOCKED`, not `LICENSE_EXPIRED`. -/
theorem claim_C2_witness :
    (LicenseService.validateLicenseKey sampleCfg sampleEnv dbWithRevoked "AXON-TEST").2 =
      LicenseService.invalid 403 "LICENSE_BLOCKED" "License is not active"
        (some [("status", DetailValue.str "revoked")]) := by
  have h := claim_C2_status_before_expiry sampleCfg sampleEnv dbWithRevoked "AXON-TEST"
    revokedExpiredRow (by decide) (by decide) (by decide) (by decide)
  exact h.1 (by decide)


/-! ## C9: `validateLicenseKey` is read-only -/

/-- The validator's state effect is at most one recorded select. -/
lemma validate_state_cases (cfg : ServiceConfig) (env : JsEnv) (st : DbState) (key : String) :
    (LicenseService.validateLicenseKey cfg env st key).1 = st ∨
    (LicenseService.validateLicenseKey cfg env st key).1
      = pushOp st (.selectLicenseByKey (jsTrim key)) := by
  unfold LicenseService.validateLicenseKey dbSelectLicenseByKey
  dsimp only
  split
  · exact Or.inl rfl
  split
  · exact Or.inl rfl
  split
  · exact Or.inl rfl
  split
  · exact Or.inr rfl
  split
  · exact Or.inr rfl
  split
  · exact Or.inr rfl
  exact Or.inr rfl

/-- C9: for every presented key and datastore state, `validateLicenseKey`
leaves both tables (and the id / randomness counters) unchanged, and every
operation it records is a select. -/
theorem claim_C9_validate_read_only (cfg : ServiceConfig) (env : JsEnv)
    (st : DbState) (key : String) :
    ((LicenseService.validateLicenseKey cfg env st key).1).licenses = st.licenses ∧
    ((LicenseService.validateLicenseKey cfg env st key).1).processedEvents
      = st.processedEvents ∧
    ((LicenseService.validateLicenseKey cfg env st key).1).nextId = st.nextId ∧
    ((LicenseService.validateLicenseKey cfg env st key).1).randCtr = st.randCtr ∧
    (((LicenseService.validateLicenseKey cfg env st key).1).trace.take
      (((LicenseService.validateLicenseKey cfg env st key).1).trace.length
        - st.trace.length)).all DbOp.isSelect = true ∧
    ((LicenseService.validateLicenseKey cfg env st key).1).trace.drop
      (((LicenseService.validateLicenseKey cfg env st key).1).trace.length
        - st.trace.length) = st.trace := by
  rcases validate_state_cases cfg env st key with h | h <;> rw [h] <;>
    simp [pushOp, DbOp.isSelect]

/-! ## C8: the enforcement middleware -/

/-- C8: with enforcement disabled the middleware allows unconditionally and
performs no validation (state untouched); otherwise it trims the first
`X-License-Key` header value, denies 401 `LICENSE_REQUIRED` on an empty
result, denies with exactly the validator's statusCode / code / message /
details on a failed validation, and on success attaches the resolved
license and allows. -/
theorem claim_C8_enforcement_gate (cfg : ServiceConfig) (env : JsEnv)
    (st : DbState) (hv : HeaderValue) :
    (LicenseService.isEnforced cfg = false →
      LicenseMiddleware.use cfg env st hv = (st, .allow none)) ∧
    (LicenseService.isEnforced cfg = true → jsTrim (readHeaderValue hv) = "" →
      LicenseMiddleware.use cfg env st hv =
        (st, .deny 401 ⟨401, "License key is required for hosted access",
          "LICENSE_REQUIRED", none⟩)) ∧
    (LicenseService.isEnforced cfg = true → jsTrim (readHeaderValue hv) ≠ "" →
      ((LicenseService.validateLicenseKey cfg env st
          (jsTrim (readHeaderValue hv))).2.valid = false →
        LicenseMiddleware.use cfg env st hv =
          ((LicenseService.validateLicenseKey cfg env st
              (jsTrim (readHeaderValue hv))).1,
           .deny (LicenseService.validateLicenseKey cfg env st
              (jsTrim (readHeaderValue hv))).2.statusCode
             ⟨(LicenseService.validateLicenseKey cfg env st
                 (jsTrim (readHeaderValue hv))).2.statusCode,
              (LicenseService.validateLicenseKey cfg env st
                 (jsTrim (readHeaderValue hv))).2.message,
              (LicenseService.validateLicenseKey cfg env st
                 (jsTrim (readHeaderValue hv))).2.code,
              (LicenseService.validateLicenseKey cfg env st
                 (jsTrim (readHeaderValue hv))).2.details⟩)) ∧
      ((LicenseService.validateLicenseKey cfg env st
          (jsTrim (readHeaderValue hv))).2.valid = true →
        LicenseMiddleware.use cfg env st hv =
          ((LicenseService.validateLicenseKey cfg env st
              (jsTrim (readHeaderValue hv))).1,
           .allow (LicenseService.validateLicenseKey cfg env st
              (jsTrim (readHeaderValue hv))).2.license))) := by
  refine ⟨?_, ?_, ?_⟩
  · intro h
    unfold LicenseMiddleware.use
    simp [h]
  · intro h hkey
    unfold LicenseMiddleware.use
    simp [h, hkey]
  · intro h hkey
    have hk : (jsTrim (readHeaderValue hv) == "") = false := by simpa using hkey
    constructor
    · intro hval
      unfold LicenseMiddleware.use
      simp [h, hk, hval]
    · intro hval
      unfold LicenseMiddleware.use
      simp [h, hk, hval]

/-! ## C5: lifecycle actions -/

/-- The lifecycle contract as the claim (C5) states it, for comparison with
`LicenseService.applyPaddleLifecycle`: an activating event delegates to the
upsert and reports `activated` exactly for `subscription.created`, `updated`
for every other activating type; a deactivating event with no resolvable
subscription id is a silent no-op (no mutation, not an error), otherwise the
matching licenses' status becomes `mapDeactivationStatus(eventType)` with
`updatedAt = now`; every other event type is `ignored` with no mutation. -/
def applyLifecycleContract (cfg : ServiceConfig) (env : JsEnv) (st : DbState)
    (payload : PaddleWebhookPayload) : DbState × Except ServiceError String :=
  let marked := pushOp st (.applyLifecycle payload.eventId payload.eventType)
  if PADDLE_ACTIVATING_EVENTS.contains payload.eventType then
    match LicenseService.upsertActiveLicense cfg env marked payload.data with
    | (st1, .ok _) =>
      (st1, .ok (if payload.eventType == "subscription.created" then "activated"
                 else "updated"))
    | (st1, .error e) => (st1, .error e)
  else if PADDLE_DEACTIVATING_EVENTS.contains payload.eventType then
    match extractSubscriptionId payload.data with
    | none => (marked, .ok "deactivated")
    | some subscriptionId =>
      ({ marked with
          licenses := marked.licenses.map (fun row =>
            if row.paddleSubscriptionId == some subscriptionId then
              { row with status := mapDeactivationStatus payload.eventType,
                         updatedAt := env.now }
            else row),
          trace := .updateLicenseBySub subscriptionId :: marked.trace },
       .ok "deactivated")
  else (marked, .ok "ignored")

/-- C5: with the datastore available, `applyPaddleLifecycle` behaves exactly
as the stated lifecycle contract. -/
theorem claim_C5_lifecycle_actions (cfg : ServiceConfig) (env : JsEnv)
    (st : DbState) (payload : PaddleWebhookPayload) (hdb : cfg.hasDb = true) :
    LicenseService.applyPaddleLifecycle cfg env st payload
      = applyLifecycleContract cfg env st payload := by
  unfold LicenseService.applyPaddleLifecycle applyLifecycleContract
    LicenseService.deactivateLicense dbUpdateLicenseDeactivation
  dsimp only
  split
  · cases hu : LicenseService.upsertActiveLicense cfg env
      (pushOp st (.applyLifecycle payload.eventId payload.eventType)) payload.data with
    | mk st1 r2 => cases r2 <;> simp [hu, Except.map]
  split
  · simp only [hdb, Bool.not_true, Bool.false_eq_true, if_false]
    cases extractSubscriptionId payload.data <;> simp [Except.map]
  rfl

/-- C5 witness: the contract and the implementation agree on the sample
`subscription.created` event against the empty datastore. -/
theorem claim_C5_witness :
    LicenseService.applyPaddleLifecycle sampleCfg sampleEnv emptyDb samplePayload
      = applyLifecycleContract sampleCfg sampleEnv emptyDb samplePayload :=
  claim_C5_lifecycle_actions sampleCfg sampleEnv emptyDb samplePayload rfl

/-! ## C10: `timingSafeEqual` is only reached with equal-length buffers -/

lemma hexDigitValue_hexDigitChar (n : Nat) (h : n < 16) :
    hexDigitValue (hexDigitChar n) = some n := by
  interval_cases n <;> rfl

/-- `Buffer.from(hex(bytes), "hex")` recovers the bytes. -/
lemma bufferFromHex_hexEncode (bytes : List Nat) (h : ∀ b ∈ bytes, b < 256) :
    bufferFromHex (hexEncode bytes) = bytes := by
  induction bytes with
  | nil => rfl
  | cons b bs ih =>
    have hb : b < 256 := h b (List.mem_cons_self _ _)
    have hbs : ∀ x ∈ bs, x < 256 := fun x hx => h x (List.mem_cons_of_mem _ hx)
    have h1 : b / 16 < 16 := by omega
    have h2 : b % 16 < 16 := by omega
    have step : bufferFromHex (hexEncode (b :: bs)) =
        (16 * (b / 16) + b % 16) :: bufferFromHex (hexEncode bs) := by
      simp [bufferFromHex, hexEncode, bufferFromHexChars,
        hexDigitValue_hexDigitChar _ h1, hexDigitValue_hexDigitChar _ h2]
    rw [step, ih hbs]
    congr 1
    omega

lemma resultIsUncaughtExn_error {α : Type} (e : ServiceError) :
    resultIsUncaughtExn (Except.error (α := α) e) = e.isUncaughtExn := by
  cases e <;> rfl

/-- `parsePaddleSignatureHeader` never produces a runtime exception. -/
lemma parseHeader_no_exn (h : Option String) :
    resultIsUncaughtExn (parsePaddleSignatureHeader h) = false := by
  unfold parsePaddleSignatureHeader
  repeat' split
  all_goals try dsimp only
  all_goals repeat' split
  all_goals rfl

/-- C10: the guard before `timingSafeEqual` rejects any received `h1` whose
hex decoding is empty or differs in length from the expected digest, so the
comparison is only reached on equal-length non-empty buffers and the
length-mismatch throw of `timingSafeEqual` is unreachable; under an HMAC
digest of 32 bytes the expected buffer always decodes to exactly 32 bytes. -/
theorem claim_C10_timing_safe_equal_guard (cfg : ServiceConfig) (env : JsEnv)
    (rawBody : String) (signatureHeader : Option String)
    (hlen : ∀ s p, (env.hmacSha256 s p).length = 32)
    (hbytes : ∀ s p b, b ∈ env.hmacSha256 s p → b < 256) :
    resultIsUncaughtExn
      (LicenseService.verifyPaddleSignature cfg env rawBody signatureHeader) = false ∧
    (∀ ts : String,
      (bufferFromHex (hexEncode (env.hmacSha256 (jsOr cfg.paddleWebhookSecret "")
        (ts ++ ":" ++ rawBody)))).length = 32) := by
  constructor
  · unfold LicenseService.verifyPaddleSignature
    dsimp only
    split
    · rfl
    split
    · next e heq =>
      have hp := parseHeader_no_exn signatureHeader
      rw [heq, resultIsUncaughtExn_error] at hp
      rw [resultIsUncaughtExn_error]
      exact hp
    · next parsed heq =>
      split
      · next e heq2 =>
        revert heq2
        split
        · split
          · split
            · intro h2
              cases h2
              rfl
            · intro h2
              cases h2
          · intro h2
            cases h2
        · intro h2
          cases h2
      · next heq2 =>
        split
        · rfl
        · next hguard =>
          have hg : ((bufferFromHex parsed.signature).length == 0
              || (bufferFromHex parsed.signature).length
                != (bufferFromHex (hexEncode (env.hmacSha256
                    (jsOr cfg.paddleWebhookSecret "")
                    (parsed.timestamp ++ ":" ++ rawBody)))).length) = false := by
            revert hguard
            cases hx : ((bufferFromHex parsed.signature).length == 0
              || (bufferFromHex parsed.signature).length
                != (bufferFromHex (hexEncode (env.hmacSha256
                    (jsOr cfg.paddleWebhookSecret "")
                    (parsed.timestamp ++ ":" ++ rawBody)))).length) <;> simp
          have hne : (bufferFromHex parsed.signature).length =
              (bufferFromHex (hexEncode (env.hmacSha256
                (jsOr cfg.paddleWebhookSecret "")
                (parsed.timestamp ++ ":" ++ rawBody)))).length := by
            rcases Bool.or_eq_false_iff.mp hg with ⟨h1, h2⟩
            simpa using h2
          have htse : timingSafeEqualNode (bufferFromHex parsed.signature)
              (bufferFromHex (hexEncode (env.hmacSha256
                (jsOr cfg.paddleWebhookSecret "")
                (parsed.timestamp ++ ":" ++ rawBody)))) =
              .ok ((bufferFromHex parsed.signature)
                == bufferFromHex (hexEncode (env.hmacSha256
                  (jsOr cfg.paddleWebhookSecret "")
                  (parsed.timestamp ++ ":" ++ rawBody)))) := by
            unfold timingSafeEqualNode
            rw [if_neg (by simp [hne])]
          rw [htse]
          dsimp only
          split <;> rfl
  · intro ts
    rw [bufferFromHex_hexEncode _ (fun b hb =>
      hbytes (jsOr cfg.paddleWebhookSecret "") (ts ++ ":" ++ rawBody) b hb)]
    exact hlen _ _

/-- C10 witness: a concrete truncated `h1` (one hex byte) is rejected by the
guard, not by a `timingSafeEqual` throw. -/
theorem claim_C10_witness :
    resultIsUncaughtExn (LicenseService.verifyPaddleSignature sampleCfg sampleEnv
      sampleBody (some "ts=1000;h1=ab")) = false :=
  (claim_C10_timing_safe_equal_guard sampleCfg sampleEnv sampleBody
    (some "ts=1000;h1=ab") (fun _ _ => rfl)
    (fun _ _ b hb => by
      have hb0 := List.eq_of_mem_replicate hb
      omega)).1

/-! ## C4: signature verification failure contract and its ordering -/

/-- The failure contract of signature verification as the claim (C4) and
spec §4.1 state it, with the position of the staleness check left as a
parameter: the claim's listed order performs the HMAC comparison before the
staleness check (`expiredBeforeCompare := false`); the source performs the
staleness check first (`expiredBeforeCompare := true`).  All other checks
(missing secret, missing header, malformed header, mismatch as inequality
of the hex-decoded `h1` and the decoded expected digest) are common. -/
def signatureContract (expiredBeforeCompare : Bool) (cfg : ServiceConfig)
    (env : JsEnv) (rawBody : String) (signatureHeader : Option String) :
    Except ServiceError Unit :=
  if jsOr cfg.paddleWebhookSecret "" == "" then
    .error (.http ⟨503, "PADDLE_NOT_CONFIGURED",
      "Paddle webhook secret is not configured", none⟩)
  else
    match parsePaddleSignatureHeader signatureHeader with
    | .error e => .error e
    | .ok parsed =>
      let expiredCheck : Except ServiceError Unit :=
        match jsParseInt (jsOr cfg.paddleWebhookToleranceSec "300"),
            jsParseInt parsed.timestamp with
        | some tol, some ts =>
          if tol > 0 then
            if |Int.fdiv env.now 1000 - ts| > tol then
              .error (.http ⟨401, "PADDLE_SIGNATURE_EXPIRED",
                "Paddle webhook signature timestamp is outside allowed skew",
                some [("driftSeconds", .int |Int.fdiv env.now 1000 - ts|),
                      ("toleranceSeconds", .int tol)]⟩)
            else .ok ()
          else .ok ()
        | _, _ => .ok ()
      let mismatchCheck : Except ServiceError Unit :=
        if bufferFromHex parsed.signature ≠
            bufferFromHex (hexEncode (env.hmacSha256 (jsOr cfg.paddleWebhookSecret "")
              (parsed.timestamp ++ ":" ++ rawBody))) then
          .error (.http ⟨401, "PADDLE_SIGNATURE_INVALID",
            "Paddle webhook signature does not match", none⟩)
        else .ok ()
      if expiredBeforeCompare then
        match expiredCheck with
        | .error e => .error e
        | .ok _ => mismatchCheck
      else
        match mismatchCheck with
        | .error e => .error e
        | .ok _ => expiredCheck

/-- C4 (amended): under a 32-byte HMAC digest, `verifyPaddleSignature`
realises the stated failure contract with the staleness check performed
after header parsing and before the HMAC comparison — not after it, as the
claim's listed order would have it. -/
theorem claim_C4_signature_order (cfg : ServiceConfig) (env : JsEnv)
    (rawBody : String) (signatureHeader : Option String)
    (hlen : ∀ s p, (env.hmacSha256 s p).length = 32)
    (hbytes : ∀ s p b, b ∈ env.hmacSha256 s p → b < 256) :
    LicenseService.verifyPaddleSignature cfg env rawBody signatureHeader
      = signatureContract true cfg env rawBody signatureHeader := by
  unfold LicenseService.verifyPaddleSignature signatureContract
  dsimp only
  split
  · rfl
  split
  · rfl
  next parsed heq =>
    split
    · rfl
    · next heq2 =>
      have hebv : bufferFromHex (hexEncode (env.hmacSha256
          (jsOr cfg.paddleWebhookSecret "") (parsed.timestamp ++ ":" ++ rawBody)))
          = env.hmacSha256 (jsOr cfg.paddleWebhookSecret "")
              (parsed.timestamp ++ ":" ++ rawBody) :=
        bufferFromHex_hexEncode _ (fun b hb => hbytes _ _ b hb)
      have heblen : (bufferFromHex (hexEncode (env.hmacSha256
          (jsOr cfg.paddleWebhookSecret "")
          (parsed.timestamp ++ ":" ++ rawBody)))).length = 32 := by
        rw [hebv]; exact hlen _ _
      by_cases hrb : bufferFromHex parsed.signature
          = bufferFromHex (hexEncode (env.hmacSha256
              (jsOr cfg.paddleWebhookSecret "") (parsed.timestamp ++ ":" ++ rawBody)))
      · rw [hrb]
        simp [timingSafeEqualNode, heblen]
      · by_cases hl : (bufferFromHex parsed.signature).length
            = (bufferFromHex (hexEncode (env.hmacSha256
                (jsOr cfg.paddleWebhookSecret "")
                (parsed.timestamp ++ ":" ++ rawBody)))).length
        · have h0 : (bufferFromHex parsed.signature).length = 32 := hl.trans heblen
          simp [timingSafeEqualNode, hl, h0, hrb]
        · simp [hl, hrb]

/-- C4 witness: on a verifiable concrete request the implementation and the
amended contract agree. -/
theorem claim_C4_witness :
    LicenseService.verifyPaddleSignature sampleCfg sampleEnv sampleBody
        (some sampleHeader)
      = signatureContract true sampleCfg sampleEnv sampleBody (some sampleHeader) :=
  claim_C4_signature_order sampleCfg sampleEnv sampleBody (some sampleHeader)
    (fun _ _ => rfl)
    (fun _ _ b hb => by
      have := List.eq_of_mem_replicate hb
      omega)

/-- C4 counterexample: a header whose `h1` decodes to a single byte (so it
differs in length from any 32-byte digest) and whose timestamp is stale: the
code raises `PADDLE_SIGNATURE_EXPIRED`, while the claim's listed order makes
`PADDLE_SIGNATURE_INVALID` the first applicable failure. -/
theorem claim_C4_counterexample :
    LicenseService.verifyPaddleSignature sampleCfg sampleEnv sampleBody
        (some "ts=0;h1=ab")
      = .error (.http ⟨401, "PADDLE_SIGNATURE_EXPIRED",
          "Paddle webhook signature timestamp is outside allowed skew",
          some [("driftSeconds", .int 1000), ("toleranceSeconds", .int 300)]⟩) ∧
    signatureContract false sampleCfg sampleEnv sampleBody (some "ts=0;h1=ab")
      = .error (.http ⟨401, "PADDLE_SIGNATURE_INVALID",
          "Paddle webhook signature does not match", none⟩) := by
  refine ⟨by decide, by decide⟩

/-! ## C6: key generation on first-time activation -/

/-- Every key `buildLicenseKey` produces starts with the configured prefix. -/
lemma buildLicenseKey_startsWith (env : JsEnv) (keyPrefix : String) (ctr : Nat) :
    jsStartsWith (buildLicenseKey env keyPrefix ctr) keyPrefix = true := by
  unfold buildLicenseKey jsStartsWith
  split <;>
    simp [String.data_append, List.isPrefixOf_iff_prefix, List.append_assoc,
      List.prefix_append]

/-- If every remaining candidate key collides, the retry loop fails with
`LICENSE_KEY_GENERATION_FAILED` and inserts nothing. -/
lemma insertFreshLicenseLoop_all_collide (env : JsEnv) (keyPrefix : String)
    (email : Option String) (status plan : String) (maxDevices : Int)
    (subscriptionId : String) (expiresAt : Int) :
    ∀ (n : Nat) (st : DbState),
    (∀ i < n, st.licenses.any
      (fun r => r.key == buildLicenseKey env keyPrefix (st.randCtr + 4 * i)) = true) →
    (insertFreshLicenseLoop env keyPrefix email status plan maxDevices
        subscriptionId expiresAt n st).2
      = .error (.http ⟨500, "LICENSE_KEY_GENERATION_FAILED",
          "Unable to generate a unique license key", none⟩) ∧
    (insertFreshLicenseLoop env keyPrefix email status plan maxDevices
        subscriptionId expiresAt n st).1.licenses = st.licenses ∧
    (insertFreshLicenseLoop env keyPrefix email status plan maxDevices
        subscriptionId expiresAt n st).1.processedEvents = st.processedEvents ∧
    (insertFreshLicenseLoop env keyPrefix email status plan maxDevices
        subscriptionId expiresAt n st).1.nextId = st.nextId := by
  intro n
  induction n with
  | zero => intro st _; exact ⟨rfl, rfl, rfl, rfl⟩
  | succ m ih =>
    intro st h
    have h0 : st.licenses.any
        (fun r => r.key == buildLicenseKey env keyPrefix st.randCtr) = true := by
      have := h 0 (Nat.succ_pos m)
      simpa using this
    unfold insertFreshLicenseLoop dbInsertLicenseOnKeyConflictDoNothing
    dsimp only
    rw [if_pos h0]
    dsimp only [pushOp]
    have ihres := ih
      ⟨st.licenses, st.processedEvents, st.nextId, st.randCtr + 4,
        DbOp.insertLicense (buildLicenseKey env keyPrefix st.randCtr) false :: st.trace⟩
      (by
        intro i hi
        have h2 := h (i + 1) (by omega)
        have harith : st.randCtr + 4 * (i + 1) = st.randCtr + 4 + 4 * i := by omega
        rw [harith] at h2
        simpa using h2)
    simpa using ihres

/-- The retry loop succeeds at the first non-colliding candidate key,
inserting exactly that one row. -/
lemma insertFreshLicenseLoop_success (env : JsEnv) (keyPrefix : String)
    (email : Option String) (status plan : String) (maxDevices : Int)
    (subscriptionId : String) (expiresAt : Int) :
    ∀ (n j : Nat) (st : DbState), j < n →
    (∀ i < j, st.licenses.any
      (fun r => r.key == buildLicenseKey env keyPrefix (st.randCtr + 4 * i)) = true) →
    st.licenses.any
      (fun r => r.key == buildLicenseKey env keyPrefix (st.randCtr + 4 * j)) = false →
    (insertFreshLicenseLoop env keyPrefix email status plan maxDevices
        subscriptionId expiresAt n st).2 = .ok () ∧
    (insertFreshLicenseLoop env keyPrefix email status plan maxDevices
        subscriptionId expiresAt n st).1.licenses = st.licenses ++
      [⟨st.nextId, buildLicenseKey env keyPrefix (st.randCtr + 4 * j), email, status,
        plan, maxDevices, some subscriptionId, expiresAt, env.now, env.now⟩] ∧
    (insertFreshLicenseLoop env keyPrefix email status plan maxDevices
        subscriptionId expiresAt n st).1.processedEvents = st.processedEvents := by
  intro n
  induction n with
  | zero => intro j st hj; exact absurd hj (Nat.not_lt_zero j)
  | succ m ih =>
    intro j st hj hcoll hfree
    cases j with
    | zero =>
      have h0 : st.licenses.any
          (fun r => r.key == buildLicenseKey env keyPrefix st.randCtr) = false := by
        simpa using hfree
      have hins : dbInsertLicenseOnKeyConflictDoNothing env
          { st with randCtr := st.randCtr + 4 }
          (buildLicenseKey env keyPrefix st.randCtr) email status plan maxDevices
          (some subscriptionId) expiresAt
          = (⟨st.licenses ++ [⟨st.nextId, buildLicenseKey env keyPrefix st.randCtr,
              email, status, plan, maxDevices, some subscriptionId, expiresAt,
              env.now, env.now⟩], st.processedEvents, st.nextId + 1, st.randCtr + 4,
              DbOp.insertLicense (buildLicenseKey env keyPrefix st.randCtr) true
                :: st.trace⟩,
             [st.nextId]) := by
        unfold dbInsertLicenseOnKeyConflictDoNothing
        rw [if_neg (by simp [h0])]
      unfold insertFreshLicenseLoop
      dsimp only
      rw [hins]
      simp
    | succ j' =>
      have h0 : st.licenses.any
          (fun r => r.key == buildLicenseKey env keyPrefix st.randCtr) = true := by
        simpa using hcoll 0 (Nat.succ_pos j')
      have hins : dbInsertLicenseOnKeyConflictDoNothing env
          { st with randCtr := st.randCtr + 4 }
          (buildLicenseKey env keyPrefix st.randCtr) email status plan maxDevices
          (some subscriptionId) expiresAt
          = (⟨st.licenses, st.processedEvents, st.nextId, st.randCtr + 4,
              DbOp.insertLicense (buildLicenseKey env keyPrefix st.randCtr) false
                :: st.trace⟩,
             []) := by
        unfold dbInsertLicenseOnKeyConflictDoNothing
        rw [if_pos (by simp [h0])]
        rfl
      unfold insertFreshLicenseLoop
      dsimp only
      rw [hins]
      dsimp only
      have ihres := ih j'
        ⟨st.licenses, st.processedEvents, st.nextId, st.randCtr + 4,
          DbOp.insertLicense (buildLicenseKey env keyPrefix st.randCtr) false :: st.trace⟩
        (by omega)
        (by
          intro i hi
          have h2 := hcoll (i + 1) (by omega)
          have harith : st.randCtr + 4 * (i + 1) = st.randCtr + 4 + 4 * i := by omega
          rw [harith] at h2
          simpa using h2)
        (by
          have harith : st.randCtr + 4 * (j' + 1) = st.randCtr + 4 + 4 * j' := by omega
          rw [harith] at hfree
          simpa using hfree)
      have harith2 : st.randCtr + 4 + 4 * j' = st.randCtr + 4 * (j' + 1) := by omega
      rw [harith2] at ihres
      simpa using ihres

/-- C6: on an activating event for a previously-unseen subscription id,
license creation builds keys from the configured prefix (every candidate
starts with it), retries the conflict-ignoring insert at most 5 times,
succeeds at the first non-colliding candidate (inserting exactly that row),
and fails `LICENSE_KEY_GENERATION_FAILED` / 500 exactly when all 5
candidates collide. -/
theorem claim_C6_key_generation (cfg : ServiceConfig) (env : JsEnv) (st : DbState)
    (data : List (String × Json)) (subscriptionId : String)
    (hdb : cfg.hasDb = true)
    (hsub : extractSubscriptionId data = some subscriptionId)
    (hfresh : st.licenses.find?
      (fun row => row.paddleSubscriptionId == some subscriptionId) = none) :
    (∀ ctr, jsStartsWith (buildLicenseKey env (jsOr cfg.licenseKeyPrefix "AXON-") ctr)
      (jsOr cfg.licenseKeyPrefix "AXON-") = true) ∧
    ((∀ i < 5, st.licenses.any (fun r => r.key ==
        buildLicenseKey env (jsOr cfg.licenseKeyPrefix "AXON-") (st.randCtr + 4 * i))
        = true) →
      (LicenseService.upsertActiveLicense cfg env st data).2
        = .error (.http ⟨500, "LICENSE_KEY_GENERATION_FAILED",
            "Unable to generate a unique license key", none⟩) ∧
      (LicenseService.upsertActiveLicense cfg env st data).1.licenses = st.licenses) ∧
    (∀ j, j < 5 →
      (∀ i < j, st.licenses.any (fun r => r.key ==
        buildLicenseKey env (jsOr cfg.licenseKeyPrefix "AXON-") (st.randCtr + 4 * i))
        = true) →
      st.licenses.any (fun r => r.key ==
        buildLicenseKey env (jsOr cfg.licenseKeyPrefix "AXON-") (st.randCtr + 4 * j))
        = false →
      (LicenseService.upsertActiveLicense cfg env st data).2 = .ok () ∧
      (LicenseService.upsertActiveLicense cfg env st data).1.licenses
        = st.licenses ++
          [⟨st.nextId,
            buildLicenseKey env (jsOr cfg.licenseKeyPrefix "AXON-") (st.randCtr + 4 * j),
            extractEmail data, payloadStatus data, resolvePlan data,
            deriveMaxDevices (resolvePlan data), some subscriptionId,
            extractExpiryDate env data, env.now, env.now⟩]) := by
  have hup : LicenseService.upsertActiveLicense cfg env st data
      = insertFreshLicenseLoop env (jsOr cfg.licenseKeyPrefix "AXON-")
          (extractEmail data) (payloadStatus data) (resolvePlan data)
          (deriveMaxDevices (resolvePlan data)) subscriptionId
          (extractExpiryDate env data) 5
          (pushOp st (.selectLicenseBySub subscriptionId)) := by
    unfold LicenseService.upsertActiveLicense dbSelectLicenseBySub
    simp [hdb, hsub, hfresh]
  refine ⟨fun ctr => buildLicenseKey_startsWith env _ ctr, ?_, ?_⟩
  · intro hall
    rw [hup]
    have h := insertFreshLicenseLoop_all_collide env (jsOr cfg.licenseKeyPrefix "AXON-")
      (extractEmail data) (payloadStatus data) (resolvePlan data)
      (deriveMaxDevices (resolvePlan data)) subscriptionId
      (extractExpiryDate env data) 5
      (pushOp st (.selectLicenseBySub subscriptionId))
      (by intro i hi; simpa [pushOp] using hall i hi)
    exact ⟨h.1, h.2.1⟩
  · intro j hj hcoll hfree
    rw [hup]
    have h := insertFreshLicenseLoop_success env (jsOr cfg.licenseKeyPrefix "AXON-")
      (extractEmail data) (payloadStatus data) (resolvePlan data)
      (deriveMaxDevices (resolvePlan data)) subscriptionId
      (extractExpiryDate env data) 5 j
      (pushOp st (.selectLicenseBySub subscriptionId)) hj
      (by intro i hi; simpa [pushOp] using hcoll i hi)
      (by simpa [pushOp] using hfree)
    exact ⟨h.1, h.2.1⟩

def collisionRow : LicenseRow :=
  ⟨0, "AXON-A0A0-A1A1-A2A2-A3A3", none, "active", "pro", 1, some "subOld",
    5000000, 0, 0⟩

def dbWithCollision : DbState := ⟨[collisionRow], [], 1, 0, []⟩

/-- C6 witness: under a forced single pre-existing collision (the stored key
equals the first candidate), the second candidate is inserted. -/
theorem claim_C6_witness :
    (LicenseService.upsertActiveLicense sampleCfg sampleEnv dbWithCollision
      samplePayload.data).2 = .ok () ∧
    (LicenseService.upsertActiveLicense sampleCfg sampleEnv dbWithCollision
      samplePayload.data).1.licenses
      = [collisionRow,
         ⟨1, "AXON-B0B0-B1B1-B2B2-B3B3", none, "active", "pro", 1, some "sub1",
           31537000000, 1000000, 1000000⟩] := by
  have h := claim_C6_key_generation sampleCfg sampleEnv dbWithCollision
    samplePayload.data "sub1" rfl (by decide) (by decide)
  have h2 := h.2.2 1 (by decide)
    (by
      intro i hi
      have hi0 : i = 0 := by omega
      subst hi0
      decide)
    (by decide)
  exact ⟨h2.1, by rw [h2.2]; decide⟩

/-! ## Frame lemmas: lifecycle application never touches the ledger and
marks exactly one application -/

lemma countLifecycle_cons (op : DbOp) (tr : List DbOp) :
    countLifecycle (op :: tr)
      = (if op.isApplyLifecycle then 1 else 0) + countLifecycle tr := by
  cases h : op.isApplyLifecycle <;>
    simp [countLifecycle, List.filter_cons, h, Nat.add_comm]

lemma insertFreshLicenseLoop_frame (env : JsEnv) (keyPrefix : String)
    (email : Option String) (status plan : String) (maxDevices : Int)
    (subscriptionId : String) (expiresAt : Int) :
    ∀ (n : Nat) (st : DbState),
    (insertFreshLicenseLoop env keyPrefix email status plan maxDevices
        subscriptionId expiresAt n st).1.processedEvents = st.processedEvents ∧
    countLifecycle (insertFreshLicenseLoop env keyPrefix email status plan maxDevices
        subscriptionId expiresAt n st).1.trace = countLifecycle st.trace := by
  intro n
  induction n with
  | zero => intro st; exact ⟨rfl, rfl⟩
  | succ m ih =>
    intro st
    by_cases hc : st.licenses.any
        (fun r => r.key == buildLicenseKey env keyPrefix st.randCtr) = true
    · have hins : dbInsertLicenseOnKeyConflictDoNothing env
          { st with randCtr := st.randCtr + 4 }
          (buildLicenseKey env keyPrefix st.randCtr) email status plan maxDevices
          (some subscriptionId) expiresAt
          = (⟨st.licenses, st.processedEvents, st.nextId, st.randCtr + 4,
              DbOp.insertLicense (buildLicenseKey env keyPrefix st.randCtr) false
                :: st.trace⟩, []) := by
        unfold dbInsertLicenseOnKeyConflictDoNothing
        rw [if_pos (by simp [hc])]
        rfl
      unfold insertFreshLicenseLoop
      dsimp only
      rw [hins]
      dsimp only
      have h := ih ⟨st.licenses, st.processedEvents, st.nextId, st.randCtr + 4,
        DbOp.insertLicense (buildLicenseKey env keyPrefix st.randCtr) false :: st.trace⟩
      constructor
      · simpa using h.1
      · simpa [countLifecycle_cons, DbOp.isApplyLifecycle] using h.2
    · have hc2 : st.licenses.any
          (fun r => r.key == buildLicenseKey env keyPrefix st.randCtr) = false := by
        cases hx : st.licenses.any
            (fun r => r.key == buildLicenseKey env keyPrefix st.randCtr)
        · rfl
        · exact absurd hx hc
      have hins : dbInsertLicenseOnKeyConflictDoNothing env
          { st with randCtr := st.randCtr + 4 }
          (buildLicenseKey env keyPrefix st.randCtr) email status plan maxDevices
          (some subscriptionId) expiresAt
          = (⟨st.licenses ++ [⟨st.nextId, buildLicenseKey env keyPrefix st.randCtr,
              email, status, plan, maxDevices, some subscriptionId, expiresAt,
              env.now, env.now⟩], st.processedEvents, st.nextId + 1, st.randCtr + 4,
              DbOp.insertLicense (buildLicenseKey env keyPrefix st.randCtr) true
                :: st.trace⟩, [st.nextId]) := by
        unfold dbInsertLicenseOnKeyConflictDoNothing
        rw [if_neg (by simp [hc2])]
      unfold insertFreshLicenseLoop
      dsimp only
      rw [hins]
      constructor
      · simp
      · simp [countLifecycle_cons, DbOp.isApplyLifecycle]

lemma upsert_frame (cfg : ServiceConfig) (env : JsEnv) (st : DbState)
    (data : List (String × Json)) :
    (LicenseService.upsertActiveLicense cfg env st data).1.processedEvents
      = st.processedEvents ∧
    countLifecycle (LicenseService.upsertActiveLicense cfg env st data).1.trace
      = countLifecycle st.trace := by
  unfold LicenseService.upsertActiveLicense dbSelectLicenseBySub
    dbUpdateLicenseActivation pushOp
  dsimp only
  split
  · exact ⟨rfl, rfl⟩
  split
  · exact ⟨rfl, rfl⟩
  next subscriptionId heqsub =>
    split
    · exact ⟨rfl, by simp [countLifecycle_cons, DbOp.isApplyLifecycle]⟩
    · have h := insertFreshLicenseLoop_frame env (jsOr cfg.licenseKeyPrefix "AXON-")
        (extractEmail data) (payloadStatus data) (resolvePlan data)
        (deriveMaxDevices (resolvePlan data)) subscriptionId
        (extractExpiryDate env data) 5
        ⟨st.licenses, st.processedEvents, st.nextId, st.randCtr,
          DbOp.selectLicenseBySub subscriptionId :: st.trace⟩
      constructor
      · simpa using h.1
      · simpa [countLifecycle_cons, DbOp.isApplyLifecycle] using h.2

lemma deactivate_frame (cfg : ServiceConfig) (env : JsEnv) (st : DbState)
    (data : List (String × Json)) (eventType : String) :
    (LicenseService.deactivateLicense cfg env st data eventType).1.processedEvents
      = st.processedEvents ∧
    countLifecycle (LicenseService.deactivateLicense cfg env st data
      eventType).1.trace = countLifecycle st.trace := by
  unfold LicenseService.deactivateLicense dbUpdateLicenseDeactivation
  dsimp only
  split
  · exact ⟨rfl, rfl⟩
  split
  · exact ⟨rfl, rfl⟩
  · exact ⟨rfl, by simp [countLifecycle_cons, DbOp.isApplyLifecycle]⟩

/-- A lifecycle application leaves the ledger untouched and records exactly
one application marker. -/
lemma applyLifecycle_frame (cfg : ServiceConfig) (env : JsEnv) (st : DbState)
    (payload : PaddleWebhookPayload) :
    (LicenseService.applyPaddleLifecycle cfg env st payload).1.processedEvents
      = st.processedEvents ∧
    countLifecycle (LicenseService.applyPaddleLifecycle cfg env st
      payload).1.trace = countLifecycle st.trace + 1 := by
  unfold LicenseService.applyPaddleLifecycle
  dsimp only
  split
  · have h := upsert_frame cfg env (pushOp st
      (.applyLifecycle payload.eventId payload.eventType)) payload.data
    refine ⟨h.1, ?_⟩
    rw [h.2]
    simp [pushOp, countLifecycle_cons, DbOp.isApplyLifecycle, Nat.add_comm]
  split
  · have h := deactivate_frame cfg env (pushOp st
      (.applyLifecycle payload.eventId payload.eventType)) payload.data
      payload.eventType
    refine ⟨h.1, ?_⟩
    rw [h.2]
    simp [pushOp, countLifecycle_cons, DbOp.isApplyLifecycle, Nat.add_comm]
  · exact ⟨rfl, by simp [pushOp, countLifecycle_cons, DbOp.isApplyLifecycle,
      Nat.add_comm]⟩

/-! ## C3: rollback of the idempotency reservation on lifecycle failure -/

/-- After the rollback delete, the ledger holds no row for the event id. -/
lemma delete_removes_event (st : DbState) (eid : String) :
    (dbDeleteProcessedEventsByEventId st eid).processedEvents.any
      (fun r => r.eventId == eid) = false := by
  unfold dbDeleteProcessedEventsByEventId
  try dsimp only
  rw [Bool.eq_false_iff]
  intro hx
  rcases List.any_eq_true.mp hx with ⟨r, hr, hbeq⟩
  rcases List.mem_filter.mp hr with ⟨_, hkeep⟩
  rw [hbeq] at hkeep
  cases hkeep

/-- A reservation insert on a ledger without the event id claims it. -/
lemma insert_claims_when_absent (env : JsEnv) (st : DbState) (eid source : String)
    (h : st.processedEvents.any (fun r => r.eventId == eid) = false) :
    dbInsertProcessedEvent env st eid source
      = (⟨st.licenses, st.processedEvents ++ [⟨st.nextId, eid, source, env.now⟩],
          st.nextId + 1, st.randCtr,
          DbOp.insertProcessedEvent eid true :: st.trace⟩, [st.nextId]) := by
  unfold dbInsertProcessedEvent
  rw [if_neg (by simp [h])]

/-- A reservation insert on a ledger already holding the event id is a
conflict no-op. -/
lemma insert_conflicts_when_present (env : JsEnv) (st : DbState) (eid source : String)
    (h : st.processedEvents.any (fun r => r.eventId == eid) = true) :
    dbInsertProcessedEvent env st eid source
      = (pushOp st (.insertProcessedEvent eid false), []) := by
  unfold dbInsertProcessedEvent
  rw [if_pos (by simp [h])]

/-- `processPaddleWebhook` on a verified, parsed, fresh event: the lifecycle
runs on the claimed state; an error rolls the reservation back. -/
lemma process_fresh_step (cfg : ServiceConfig) (env : JsEnv) (st : DbState)
    (rawBody : String) (signatureHeader : Option String)
    (payload : PaddleWebhookPayload)
    (hdb : cfg.hasDb = true)
    (hv : LicenseService.verifyPaddleSignature cfg env rawBody signatureHeader
      = .ok ())
    (hp : parsePaddlePayload env rawBody = .ok payload)
    (hfresh : st.processedEvents.any (fun r => r.eventId == payload.eventId) = false) :
    LicenseService.processPaddleWebhook cfg env st rawBody signatureHeader
      = (match LicenseService.applyPaddleLifecycle cfg env
          (dbInsertProcessedEvent env st payload.eventId "paddle").1 payload with
         | (st2, .ok action) => (st2, .ok ⟨payload.eventId, payload.eventType, action⟩)
         | (st2, .error e) =>
           (dbDeleteProcessedEventsByEventId st2 payload.eventId, .error e)) := by
  unfold LicenseService.processPaddleWebhook
  rw [hv]
  try dsimp only
  rw [hp]
  try dsimp only
  rw [hdb]
  try dsimp only
  rw [insert_claims_when_absent env st payload.eventId "paddle" hfresh]
  try dsimp only
  cases happ : LicenseService.applyPaddleLifecycle cfg env
      (dbInsertProcessedEvent env st payload.eventId "paddle").1 payload with
  | mk st2 r =>
    rw [insert_claims_when_absent env st payload.eventId "paddle" hfresh] at happ
    dsimp only at happ
    rw [happ]
    cases r <;> rfl

/-- `processPaddleWebhook` on a verified, parsed event already in the
ledger: duplicate, no lifecycle run. -/
lemma process_duplicate_step (cfg : ServiceConfig) (env : JsEnv) (st : DbState)
    (rawBody : String) (signatureHeader : Option String)
    (payload : PaddleWebhookPayload)
    (hdb : cfg.hasDb = true)
    (hv : LicenseService.verifyPaddleSignature cfg env rawBody signatureHeader
      = .ok ())
    (hp : parsePaddlePayload env rawBody = .ok payload)
    (hdup : st.processedEvents.any (fun r => r.eventId == payload.eventId) = true) :
    LicenseService.processPaddleWebhook cfg env st rawBody signatureHeader
      = (pushOp st (.insertProcessedEvent payload.eventId false),
         .ok ⟨payload.eventId, payload.eventType, "duplicate"⟩) := by
  unfold LicenseService.processPaddleWebhook
  rw [hv]
  try dsimp only
  rw [hp]
  try dsimp only
  rw [hdb]
  try dsimp only
  rw [insert_conflicts_when_present env st payload.eventId "paddle" hdup]
  try dsimp only
  rfl

/-- C3: when the reservation insert succeeds but the lifecycle application
fails, `processPaddleWebhook` deletes the reservation row and re-raises the
error unmodified; afterwards the ledger holds no row for that event id, so a
redelivery can claim it again. -/
theorem claim_C3_rollback_on_failure (cfg : ServiceConfig) (env : JsEnv)
    (st : DbState) (rawBody : String) (signatureHeader : Option String)
    (payload : PaddleWebhookPayload) (e : ServiceError) (st2 : DbState)
    (hdb : cfg.hasDb = true)
    (hv : LicenseService.verifyPaddleSignature cfg env rawBody signatureHeader
      = .ok ())
    (hp : parsePaddlePayload env rawBody = .ok payload)
    (hfresh : st.processedEvents.any (fun r => r.eventId == payload.eventId) = false)
    (happ : LicenseService.applyPaddleLifecycle cfg env
      (dbInsertProcessedEvent env st payload.eventId "paddle").1 payload
      = (st2, .error e)) :
    LicenseService.processPaddleWebhook cfg env st rawBody signatureHeader
      = (dbDeleteProcessedEventsByEventId st2 payload.eventId, .error e) ∧
    (dbDeleteProcessedEventsByEventId st2 payload.eventId).processedEvents.any
      (fun r => r.eventId == payload.eventId) = false ∧
    (dbInsertProcessedEvent env
      (dbDeleteProcessedEventsByEventId st2 payload.eventId)
      payload.eventId "paddle").2
      = [(dbDeleteProcessedEventsByEventId st2 payload.eventId).nextId] := by
  refine ⟨?_, delete_removes_event st2 payload.eventId, ?_⟩
  · rw [process_fresh_step cfg env st rawBody signatureHeader payload hdb hv hp hfresh,
      happ]
  · rw [insert_claims_when_absent env _ payload.eventId "paddle"
      (delete_removes_event st2 payload.eventId)]

def sampleBodyNoSub : String :=
  "\x7b\"event_id\":\"evt3\",\"event_type\":\"subscription.created\",\"data\":\x7b\x7d\x7d"

def sampleJsonNoSub : Json :=
  Json.obj [("event_id", Json.str "evt3"),
    ("event_type", Json.str "subscription.created"), ("data", Json.obj [])]

/-- A runtime whose `JSON.parse` behaves as on `sampleBodyNoSub` (an
activating event carrying no subscription id). -/
def sampleEnv2 : JsEnv :=
  { sampleEnv with
      jsonParse := fun s => if s == sampleBodyNoSub then some sampleJsonNoSub else none }

/-- The state in which the failing lifecycle left the datastore in the C3
witness scenario. -/
def c3St2 : DbState :=
  (LicenseService.applyPaddleLifecycle sampleCfg sampleEnv2
    (dbInsertProcessedEvent sampleEnv2 emptyDb "evt3" "paddle").1
    ⟨"evt3", "subscription.created", []⟩).1

/-- C3 witness: an activating event without a subscription id claims the
reservation, fails `PADDLE_SUBSCRIPTION_ID_MISSING`, and the reservation is
rolled back with the error re-raised. -/
theorem claim_C3_witness :
    LicenseService.processPaddleWebhook sampleCfg sampleEnv2 emptyDb sampleBodyNoSub
        (some sampleHeader)
      = (dbDeleteProcessedEventsByEventId c3St2 "evt3",
         .error (.http ⟨400, "PADDLE_SUBSCRIPTION_ID_MISSING",
           "Paddle event is missing subscription id", none⟩)) := by
  have h := claim_C3_rollback_on_failure sampleCfg sampleEnv2 emptyDb sampleBodyNoSub
    (some sampleHeader) ⟨"evt3", "subscription.created", []⟩
    (.http ⟨400, "PADDLE_SUBSCRIPTION_ID_MISSING",
      "Paddle event is missing subscription id", none⟩)
    c3St2 rfl (by decide) rfl (by decide) (by decide)
  exact h.1

/-! ## C1: idempotent webhook delivery -/

/-- C1 (amended): if the first delivery of an event id finds no existing
reservation, succeeds in claiming it and applies the lifecycle, then a
second delivery of the same event id returns ok with action `duplicate`,
changes neither table, and exactly one lifecycle application happens across
the two calls. -/
theorem claim_C1_idempotent_delivery (cfg : ServiceConfig) (env1 env2 : JsEnv)
    (st : DbState) (b1 b2 : String) (h1 h2 : Option String)
    (p1 p2 : PaddleWebhookPayload) (st2 : DbState) (a : String)
    (hdb : cfg.hasDb = true)
    (hv1 : LicenseService.verifyPaddleSignature cfg env1 b1 h1 = .ok ())
    (hp1 : parsePaddlePayload env1 b1 = .ok p1)
    (hfresh : st.processedEvents.any (fun r => r.eventId == p1.eventId) = false)
    (happ : LicenseService.applyPaddleLifecycle cfg env1
      (dbInsertProcessedEvent env1 st p1.eventId "paddle").1 p1 = (st2, .ok a))
    (hv2 : LicenseService.verifyPaddleSignature cfg env2 b2 h2 = .ok ())
    (hp2 : parsePaddlePayload env2 b2 = .ok p2)
    (heid : p2.eventId = p1.eventId) :
    LicenseService.processPaddleWebhook cfg env1 st b1 h1
      = (st2, .ok ⟨p1.eventId, p1.eventType, a⟩) ∧
    LicenseService.processPaddleWebhook cfg env2 st2 b2 h2
      = (pushOp st2 (.insertProcessedEvent p2.eventId false),
         .ok ⟨p2.eventId, p2.eventType, "duplicate"⟩) ∧
    (pushOp st2 (.insertProcessedEvent p2.eventId false)).licenses = st2.licenses ∧
    (pushOp st2 (.insertProcessedEvent p2.eventId false)).processedEvents
      = st2.processedEvents ∧
    countLifecycle (pushOp st2 (.insertProcessedEvent p2.eventId false)).trace
      = countLifecycle st.trace + 1 := by
  have hins := insert_claims_when_absent env1 st p1.eventId "paddle" hfresh
  have c1 : LicenseService.processPaddleWebhook cfg env1 st b1 h1
      = (st2, .ok ⟨p1.eventId, p1.eventType, a⟩) := by
    rw [process_fresh_step cfg env1 st b1 h1 p1 hdb hv1 hp1 hfresh, happ]
  have hframe := applyLifecycle_frame cfg env1
    (dbInsertProcessedEvent env1 st p1.eventId "paddle").1 p1
  have hpe : st2.processedEvents
      = st.processedEvents ++ [⟨st.nextId, p1.eventId, "paddle", env1.now⟩] := by
    have hx := hframe.1
    rw [happ, hins] at hx
    simpa using hx
  have hdup : st2.processedEvents.any (fun r => r.eventId == p2.eventId) = true := by
    rw [hpe, heid]
    simp
  have c2 := process_duplicate_step cfg env2 st2 b2 h2 p2 hdb hv2 hp2 hdup
  have hcount : countLifecycle st2.trace = countLifecycle st.trace + 1 := by
    have hx := hframe.2
    rw [happ, hins] at hx
    simpa [countLifecycle_cons, DbOp.isApplyLifecycle] using hx
  refine ⟨c1, c2, rfl, rfl, ?_⟩
  simpa [pushOp, countLifecycle_cons, DbOp.isApplyLifecycle] using hcount

/-- The state after the sample first delivery claimed and applied `evt1`. -/
def c1St2 : DbState :=
  (LicenseService.applyPaddleLifecycle sampleCfg sampleEnv
    (dbInsertProcessedEvent sampleEnv emptyDb "evt1" "paddle").1 samplePayload).1

/-- C1 witness: redelivering the sample event after a successful first
delivery yields `duplicate` and the one lifecycle application stays one. -/
theorem claim_C1_witness :
    LicenseService.processPaddleWebhook sampleCfg sampleEnv c1St2 sampleBody
        (some sampleHeader)
      = (pushOp c1St2 (.insertProcessedEvent "evt1" false),
         .ok ⟨"evt1", "subscription.created", "duplicate"⟩) ∧
    countLifecycle (pushOp c1St2 (.insertProcessedEvent "evt1" false)).trace = 1 := by
  have h := claim_C1_idempotent_delivery sampleCfg sampleEnv sampleEnv emptyDb
    sampleBody sampleBody (some sampleHeader) (some sampleHeader)
    samplePayload samplePayload c1St2 "activated"
    rfl (by decide) rfl (by decide) (by decide) (by decide) rfl rfl
  exact ⟨h.2.1, by simpa [countLifecycle] using h.2.2.2.2⟩

/-- A datastore that already holds a reservation row for `evt1`. -/
def preClaimedDb : DbState := ⟨[], [⟨0, "evt1", "paddle", 0⟩], 1, 0, []⟩

/-- C1 counterexample: against a datastore that already holds a reservation
for the event id, the first invocation succeeds (ok, action `duplicate`) and
so does the second, but zero — not exactly one — lifecycle applications
happen across the two calls, refuting the claim's "for every datastore
state". -/
theorem claim_C1_counterexample :
    (LicenseService.processPaddleWebhook sampleCfg sampleEnv preClaimedDb sampleBody
      (some sampleHeader)).2 = .ok ⟨"evt1", "subscription.created", "duplicate"⟩ ∧
    (LicenseService.processPaddleWebhook sampleCfg sampleEnv
      (LicenseService.processPaddleWebhook sampleCfg sampleEnv preClaimedDb sampleBody
        (some sampleHeader)).1 sampleBody (some sampleHeader)).2
      = .ok ⟨"evt1", "subscription.created", "duplicate"⟩ ∧
    countLifecycle (LicenseService.processPaddleWebhook sampleCfg sampleEnv
      (LicenseService.processPaddleWebhook sampleCfg sampleEnv preClaimedDb sampleBody
        (some sampleHeader)).1 sampleBody (some sampleHeader)).1.trace = 0 := by
  refine ⟨by decide, by decide, by decide⟩
